import Mathlib

/-!
Verification of the TapTap PC SDK specification against the repository's
headers (src/reference/taptap_api.h, src/reference/taptap_cloudsave.h).

The headers declare the ABI only; the client-side runtime behind it
(RequestTracker, CloudSaveService, EventQueue, Dispatcher, SessionState)
is described by the specification. Constants and struct shapes below are
translated from the headers; the runtime's operational definitions are
modelled from the specification's words, each marked in its doc comment.
-/

/-! ## Constants from src/reference/taptap_cloudsave.h (TapCloudSave_Result enum) -/

def TapCloudSave_Result_OK : Nat := 0

def TapCloudSave_Result_Uninitialized : Nat := 1

def TapCloudSave_Result_NoTapTapClient : Nat := 2

def TapCloudSave_Result_TapTapClientOutdated : Nat := 3

def TapCloudSave_Result_InvalidArgument : Nat := 4

def TapCloudSave_Result_SdkFailed : Nat := 5

def TapCloudSave_Result_FailedToReadSaveFile : Nat := 6

def TapCloudSave_Result_SaveFileTooLarge : Nat := 7

def TapCloudSave_Result_FailedToReadCoverFile : Nat := 8

def TapCloudSave_Result_CoverFileTooLarge : Nat := 9

/-! ## Constants from src/reference/taptap_api.h (TapEventID enum) -/

def TapEventID_Unknown : Nat := 0

def TapEventID_SystemStateChanged : Nat := 1

def TapEventID_AuthorizeFinished : Nat := 2002

def TapEventID_GamePlayableStatusChanged : Nat := 4001

def TapEventID_DLCPlayableStatusChanged : Nat := 4002

def TapEventID_CloudSaveList : Nat := 6001

def TapEventID_CloudSaveCreate : Nat := 6002

def TapEventID_CloudSaveUpdate : Nat := 6003

def TapEventID_CloudSaveDelete : Nat := 6004

def TapEventID_CloudSaveGetData : Nat := 6005

def TapEventID_CloudSaveGetCover : Nat := 6006

/-- All TapEventID values the header defines, in declaration order. -/
def definedEventIDs : List Nat :=
  [TapEventID_Unknown, TapEventID_SystemStateChanged, TapEventID_AuthorizeFinished,
   TapEventID_GamePlayableStatusChanged, TapEventID_DLCPlayableStatusChanged,
   TapEventID_CloudSaveList, TapEventID_CloudSaveCreate, TapEventID_CloudSaveUpdate,
   TapEventID_CloudSaveDelete, TapEventID_CloudSaveGetData, TapEventID_CloudSaveGetCover]

/-- The six cloud-save completion event kinds. -/
def cloudSaveEventIDs : List Nat :=
  [TapEventID_CloudSaveList, TapEventID_CloudSaveCreate, TapEventID_CloudSaveUpdate,
   TapEventID_CloudSaveDelete, TapEventID_CloudSaveGetData, TapEventID_CloudSaveGetCover]

/-- C9: every defined event kind lies in its documented reserved band —
SystemStateChanged in the platform band, AuthorizeFinished in the user band,
the two ownership events in the ownership band, the six cloud-save events in
the cloud-save band — and all defined event-kind values are pairwise distinct. -/
theorem event_kind_bands_and_distinct :
    (1 ≤ TapEventID_SystemStateChanged ∧ TapEventID_SystemStateChanged < 2000) ∧
    (2001 ≤ TapEventID_AuthorizeFinished ∧ TapEventID_AuthorizeFinished < 4000) ∧
    (4001 ≤ TapEventID_GamePlayableStatusChanged ∧ TapEventID_GamePlayableStatusChanged < 6000) ∧
    (4001 ≤ TapEventID_DLCPlayableStatusChanged ∧ TapEventID_DLCPlayableStatusChanged < 6000) ∧
    (∀ k ∈ cloudSaveEventIDs, 6001 ≤ k ∧ k < 8000) ∧
    definedEventIDs.Nodup := by
  decide

/-! ## Core runtime state

Modelled from the spec: the SDK lifecycle state machine (SessionState) and the
bookkeeping owned by RequestTracker and EventQueue. The header declares the ABI
only; the spec (sections 2-5) describes the runtime these definitions embed.
An event is a pair (event kind, request id); fields `accepted`, `discarded`
and `transported` are append-only logs used to state accounting properties:
requests the tracker accepted, pending requests dropped at shutdown, and
requests handed to the transport collaborator. -/

/-- Modelled from the spec: SessionState's lifecycle states
(`Uninitialized`, `Ready`, `ShutDown`). -/
inductive SessionState
  | uninitialized
  | ready
  | shutDown
deriving DecidableEq, Repr

/-- Modelled from the spec: why RequestTracker.submit rejects a request.
The spec also names `InvalidID` for a reserved sentinel value, conditional on
the design defining one; this design defines none, so that reason never arises
and is omitted. -/
inductive RejectReason
  | DuplicateInFlightID
  | NotReady
deriving DecidableEq, Repr

/-- Modelled from the spec: the synchronous outcome of RequestTracker.submit. -/
inductive SubmitOutcome
  | accepted
  | rejected (r : RejectReason)
deriving DecidableEq, Repr

/-- Modelled from the spec: the runtime state shared by SessionState,
RequestTracker (pending), EventQueue (queue) and the Dispatcher's delivery log
(dispatched), together with ghost logs for accounting. A pending entry is
(request id, completion event kind); a queued or dispatched event is
(completion event kind, request id). -/
structure SysState where
  session : SessionState
  pending : List (Int × Nat)
  queue : List (Nat × Int)
  dispatched : List (Nat × Int)
  accepted : List (Int × Nat)
  discarded : List (Int × Nat)
  transported : List (Int × Nat)
deriving DecidableEq, Repr

/-- The freshly started, not yet initialized runtime. -/
def initState : SysState :=
  { session := SessionState.uninitialized, pending := [], queue := [],
    dispatched := [], accepted := [], discarded := [], transported := [] }

/-- Modelled from the spec: RequestTracker.submit(id, operationKind).
Rejected with NotReady unless the session is Ready, rejected with
DuplicateInFlightID when an identical id is already pending; on acceptance a
PendingRequest is created and the request proceeds to the transport. -/
def submit (st : SysState) (id : Int) (kind : Nat) : SubmitOutcome × SysState :=
  if st.session ≠ SessionState.ready then
    (SubmitOutcome.rejected RejectReason.NotReady, st)
  else if st.pending.any (fun p => p.1 == id) then
    (SubmitOutcome.rejected RejectReason.DuplicateInFlightID, st)
  else
    (SubmitOutcome.accepted,
      { st with
          pending := st.pending ++ [(id, kind)],
          accepted := st.accepted ++ [(id, kind)],
          transported := st.transported ++ [(id, kind)] })

/-- Remove the first pair whose first component is `id`, returning its second
component when found. Helper for the tracker's lookup-and-remove on
completion. -/
def removeFirst (id : Int) : List (Int × Nat) → Option Nat × List (Int × Nat)
  | [] => (none, [])
  | p :: rest =>
    if p.1 == id then (some p.2, rest)
    else
      let r := removeFirst id rest
      (r.1, p :: r.2)

/-- Modelled from the spec: RequestTracker.complete(id, response). Looks up the
PendingRequest by id; if found, removes it and pushes an Event of the pending
operation's completion kind, carrying the caller's id, to the EventQueue; if
not found (stale, duplicate or post-shutdown delivery) the response is dropped. -/
def completeStep (st : SysState) (id : Int) : SysState :=
  match removeFirst id st.pending with
  | (some k, rest) => { st with pending := rest, queue := st.queue ++ [(k, id)] }
  | (none, _) => st

/-- Modelled from the spec: successful TapSDK_Init moves Uninitialized to
Ready; ShutDown is terminal, re-init is not supported. -/
def initStep (st : SysState) : SysState :=
  if st.session = SessionState.uninitialized then
    { st with session := SessionState.ready }
  else st

/-- Modelled from the spec: TapSDK_Shutdown. Ready moves to the terminal
ShutDown state and all abandoned PendingRequests are dropped without firing
their completion events. -/
def shutdownStep (st : SysState) : SysState :=
  if st.session = SessionState.ready then
    { st with
        session := SessionState.shutDown,
        pending := [],
        discarded := st.discarded ++ st.pending }
  else st

/-- Modelled from the spec: TapSDK_RunCallbacks drains the EventQueue wholesale
and delivers the drained events, in arrival order, to listeners (the listener
bookkeeping itself is modelled separately by `pump`). -/
def pumpStep (st : SysState) : SysState :=
  { st with queue := [], dispatched := st.dispatched ++ st.queue }

/-! ## CloudSaveService requests and synchronous validation

Request shapes are translated from src/reference/taptap_cloudsave.h; a C
string pointer becomes an Option (none models NULL), its bytes a list of
byte values. The validation rules are modelled from the spec (section 4.2). -/

/-- TapCloudSaveCreateRequest from src/reference/taptap_cloudsave.h. -/
structure TapCloudSaveCreateRequest where
  name : Option (List Nat)
  summary : Option (List Nat)
  extra : Option (List Nat)
  playtime : Nat
  data_file_path : Option String
  cover_file_path : Option String
deriving DecidableEq, Repr

/-- TapCloudSaveUpdateRequest from src/reference/taptap_cloudsave.h. -/
structure TapCloudSaveUpdateRequest where
  uuid : Option String
  name : Option (List Nat)
  summary : Option (List Nat)
  extra : Option (List Nat)
  playtime : Nat
  data_file_path : Option String
  cover_file_path : Option String
deriving DecidableEq, Repr

/-- TapCloudSaveGetFileRequest from src/reference/taptap_cloudsave.h. -/
structure TapCloudSaveGetFileRequest where
  uuid : Option String
  file_id : Option String
deriving DecidableEq, Repr

/-- Modelled from the spec: the filesystem collaborator's
readWholeFile(path) outcome — bytes, NotFound or IOError. -/
inductive FileResult
  | found (bytes : List Nat)
  | notFound
  | ioError
deriving DecidableEq, Repr

/-- Data file size limit: 10 MiB. -/
def maxSaveBytes : Nat := 10 * 1024 * 1024

/-- Cover file size limit: 512 KiB. -/
def maxCoverBytes : Nat := 512 * 1024

/-- Modelled from the spec: the synchronous result of a cloud-save operation
call. The source's TapCloudSave_Result enum backs every case except
DuplicateInFlightID, which the spec adds as the tracker's synchronous
rejection of an id already in flight (see `toResultCode`). -/
inductive CallResult
  | OK
  | Uninitialized
  | InvalidArgument
  | FailedToReadSaveFile
  | SaveFileTooLarge
  | FailedToReadCoverFile
  | CoverFileTooLarge
  | DuplicateInFlightID
deriving DecidableEq, Repr

/-- The TapCloudSave_Result value of src/reference/taptap_cloudsave.h backing
each synchronous call result; the spec-level DuplicateInFlightID rejection has
no value in the source enum. -/
def toResultCode : CallResult → Option Nat
  | CallResult.OK => some TapCloudSave_Result_OK
  | CallResult.Uninitialized => some TapCloudSave_Result_Uninitialized
  | CallResult.InvalidArgument => some TapCloudSave_Result_InvalidArgument
  | CallResult.FailedToReadSaveFile => some TapCloudSave_Result_FailedToReadSaveFile
  | CallResult.SaveFileTooLarge => some TapCloudSave_Result_SaveFileTooLarge
  | CallResult.FailedToReadCoverFile => some TapCloudSave_Result_FailedToReadCoverFile
  | CallResult.CoverFileTooLarge => some TapCloudSave_Result_CoverFileTooLarge
  | CallResult.DuplicateInFlightID => none

/-- A byte sequence is ASCII when every byte is below 128. -/
def asciiOnly (bs : List Nat) : Bool := bs.all (fun b => b < 128)

/-- Modelled from the spec: the save name is required, nonempty, at most 60
bytes, ASCII only (no wide or multibyte script characters). -/
def validName (name : Option (List Nat)) : Bool :=
  match name with
  | none => false
  | some bs => !bs.isEmpty && decide (bs.length ≤ 60) && asciiOnly bs

/-- Modelled from the spec: the summary is required, nonempty, at most 500
bytes. -/
def validSummary (s : Option (List Nat)) : Bool :=
  match s with
  | none => false
  | some bs => !bs.isEmpty && decide (bs.length ≤ 500)

/-- Modelled from the spec: the extra field is optional, at most 1000 bytes. -/
def validExtra (e : Option (List Nat)) : Bool :=
  match e with
  | none => true
  | some bs => decide (bs.length ≤ 1000)

/-- Modelled from the spec: synchronous validation shared by create and
update. Field checks first (bad fields are InvalidArgument, a NULL data path
included), then the data file must be readable and at most 10 MiB, then the
cover file, when supplied, must be readable and at most 512 KiB. Returns the
admission error, or none when the request may proceed to the tracker. -/
def validateSaveFields (fs : String → FileResult) (name summary extra : Option (List Nat))
    (data_file cover_file : Option String) : Option CallResult :=
  if !(validName name && validSummary summary && validExtra extra) then
    some CallResult.InvalidArgument
  else
    match data_file with
    | none => some CallResult.InvalidArgument
    | some p =>
      match fs p with
      | FileResult.notFound => some CallResult.FailedToReadSaveFile
      | FileResult.ioError => some CallResult.FailedToReadSaveFile
      | FileResult.found bytes =>
        if maxSaveBytes < bytes.length then some CallResult.SaveFileTooLarge
        else
          match cover_file with
          | none => none
          | some q =>
            match fs q with
            | FileResult.notFound => some CallResult.FailedToReadCoverFile
            | FileResult.ioError => some CallResult.FailedToReadCoverFile
            | FileResult.found cbytes =>
              if maxCoverBytes < cbytes.length then some CallResult.CoverFileTooLarge
              else none

/-- The six cloud-save operations and their arguments, following the
TapCloudSave_Async* entry points of src/reference/taptap_cloudsave.h. -/
inductive OpRequest
  | list
  | create (req : TapCloudSaveCreateRequest)
  | update (req : TapCloudSaveUpdateRequest)
  | delete (uuid : Option String)
  | getData (req : TapCloudSaveGetFileRequest)
  | getCover (req : TapCloudSaveGetFileRequest)
deriving DecidableEq, Repr

/-- The TapEventID of the completion event each operation produces, from
src/reference/taptap_cloudsave.h. -/
def eventKindOf : OpRequest → Nat
  | OpRequest.list => TapEventID_CloudSaveList
  | OpRequest.create _ => TapEventID_CloudSaveCreate
  | OpRequest.update _ => TapEventID_CloudSaveUpdate
  | OpRequest.delete _ => TapEventID_CloudSaveDelete
  | OpRequest.getData _ => TapEventID_CloudSaveGetData
  | OpRequest.getCover _ => TapEventID_CloudSaveGetCover

/-- Modelled from the spec: per-operation synchronous validation. List takes
no arguments; create and update validate their fields and files; delete needs
a uuid; the fetch operations need uuid and file id (NULL arguments that are
not allowed to be NULL are InvalidArgument). -/
def validateOp (fs : String → FileResult) : OpRequest → Option CallResult
  | OpRequest.list => none
  | OpRequest.create req =>
      validateSaveFields fs req.name req.summary req.extra req.data_file_path req.cover_file_path
  | OpRequest.update req =>
      if req.uuid.isNone then some CallResult.InvalidArgument
      else validateSaveFields fs req.name req.summary req.extra req.data_file_path req.cover_file_path
  | OpRequest.delete uuid =>
      if uuid.isNone then some CallResult.InvalidArgument else none
  | OpRequest.getData req =>
      if req.uuid.isNone || req.file_id.isNone then some CallResult.InvalidArgument else none
  | OpRequest.getCover req =>
      if req.uuid.isNone || req.file_id.isNone then some CallResult.InvalidArgument else none

/-- Modelled from the spec: a cloud-save operation's synchronous admission
path. Readiness is checked first (any operation before init, or after
shutdown, is Uninitialized); then local validation, never touching the
transport on failure; then RequestTracker.submit, whose acceptance hands the
request to the transport and returns OK. -/
def cloudSaveCall (fs : String → FileResult) (st : SysState) (id : Int) (op : OpRequest) :
    CallResult × SysState :=
  if st.session ≠ SessionState.ready then (CallResult.Uninitialized, st)
  else
    match validateOp fs op with
    | some e => (e, st)
    | none =>
      match submit st id (eventKindOf op) with
      | (SubmitOutcome.accepted, st1) => (CallResult.OK, st1)
      | (SubmitOutcome.rejected RejectReason.DuplicateInFlightID, _) =>
          (CallResult.DuplicateInFlightID, st)
      | (SubmitOutcome.rejected RejectReason.NotReady, _) =>
          (CallResult.Uninitialized, st)

/-- The actions driving the runtime: a successful init, a cloud-save call, a
transport completion delivery, shutdown, and the host's pump. -/
inductive SdkAction
  | initOK
  | call (fs : String → FileResult) (id : Int) (op : OpRequest)
  | complete (id : Int)
  | shutdown
  | pump

/-- One runtime step for an action. -/
def step (st : SysState) : SdkAction → SysState
  | SdkAction.initOK => initStep st
  | SdkAction.call fs id op => (cloudSaveCall fs st id op).2
  | SdkAction.complete id => completeStep st id
  | SdkAction.shutdown => shutdownStep st
  | SdkAction.pump => pumpStep st

/-- Run a list of actions from the fresh runtime. -/
def run (acts : List SdkAction) : SysState :=
  acts.foldl step initState

/-! ## Request/completion accounting (C1) -/

/-- Occurrences of id `i` with kind `k` in a tracker-side log. -/
def countIK (l : List (Int × Nat)) (i : Int) (k : Nat) : Nat :=
  l.countP (fun p => p.1 == i && p.2 == k)

/-- Occurrences of a completion event of kind `k` carrying id `i` in an
event log. -/
def countEv (l : List (Nat × Int)) (i : Int) (k : Nat) : Nat :=
  l.countP (fun e => e.1 == k && e.2 == i)

/-- The accounting invariant: every accepted request of a given id and kind is
in exactly one place — delivered as a completion event, still queued, still
pending, or discarded at shutdown. -/
def accountingInv (st : SysState) : Prop :=
  ∀ i k, countIK st.accepted i k =
    countEv st.dispatched i k + countEv st.queue i k +
    countIK st.pending i k + countIK st.discarded i k

theorem accountingInv_initState : accountingInv initState := by
  intro i k
  simp [initState, countIK, countEv]

theorem removeFirst_none (id : Int) (l : List (Int × Nat))
    (h : (removeFirst id l).1 = none) : (removeFirst id l).2 = l := by
  induction l with
  | nil => simp [removeFirst]
  | cons p rest ih =>
    by_cases hp : p.1 == id
    · simp [removeFirst, hp] at h
    · simp only [removeFirst, hp, Bool.false_eq_true, if_false] at h ⊢
      simpa using ih h

theorem removeFirst_count (id : Int) (k0 : Nat) (l : List (Int × Nat))
    (h : (removeFirst id l).1 = some k0) (i : Int) (k : Nat) :
    countIK l i k =
      countIK (removeFirst id l).2 i k + (if i = id ∧ k = k0 then 1 else 0) := by
  induction l with
  | nil => simp [removeFirst] at h
  | cons p rest ih =>
    by_cases hp : p.1 == id
    · have hid : p.1 = id := by simpa using hp
      simp only [removeFirst, hp, if_true] at h ⊢
      have hk0 : p.2 = k0 := by simpa using h
      subst hk0
      subst hid
      simp only [countIK, List.countP_cons]
      by_cases hik : i = p.1 ∧ k = p.2
      · obtain ⟨h1, h2⟩ := hik
        subst h1; subst h2
        simp [countIK]
      · have hb : (p.1 == i && p.2 == k) = false := by
          rw [Bool.eq_false_iff]
          intro hb
          rw [Bool.and_eq_true, beq_iff_eq, beq_iff_eq] at hb
          exact hik ⟨hb.1.symm, hb.2.symm⟩
        simp [countIK, hb, hik]
    · simp only [removeFirst, hp, Bool.false_eq_true, if_false] at h ⊢
      have := ih h
      simp only [countIK, List.countP_cons] at this ⊢
      omega

theorem accountingInv_submit (st : SysState) (id : Int) (kind : Nat)
    (h : accountingInv st) : accountingInv (submit st id kind).2 := by
  by_cases h1 : st.session = SessionState.ready
  · by_cases h2 : st.pending.any (fun p => p.1 == id) = true
    · simpa [submit, h1, h2] using h
    · intro i k
      have hx := h i k
      simp only [countIK, countEv] at hx
      simp only [submit, h1, h2, ne_eq, not_true_eq_false, if_false, Bool.false_eq_true,
        if_true, countIK, countEv, List.countP_append]
      simp only [List.countP_cons, List.countP_nil]
      omega
  · simpa [submit, h1] using h

theorem accountingInv_completeStep (st : SysState) (id : Int)
    (h : accountingInv st) : accountingInv (completeStep st id) := by
  intro i k
  rcases hr : removeFirst id st.pending with ⟨o, rest⟩
  cases o with
  | none =>
    simpa [completeStep, hr] using h i k
  | some k0 =>
    have hcount := removeFirst_count id k0 st.pending (by rw [hr]) i k
    rw [hr] at hcount
    have hx := h i k
    have hind : (if (k0 == k && id == i) = true then 1 else 0) =
        (if i = id ∧ k = k0 then 1 else 0) := by
      by_cases hc : i = id ∧ k = k0
      · obtain ⟨ha, hb⟩ := hc
        subst ha; subst hb
        simp
      · have hbf : (k0 == k && id == i) = false := by
          rw [Bool.eq_false_iff]
          intro hb
          rw [Bool.and_eq_true, beq_iff_eq, beq_iff_eq] at hb
          exact hc ⟨hb.2.symm, hb.1.symm⟩
        simp [hbf, hc]
    simp only [completeStep, hr, countIK, countEv, List.countP_append, List.countP_cons,
      List.countP_nil] at hx hcount ⊢
    omega

theorem accountingInv_initStep (st : SysState) (h : accountingInv st) :
    accountingInv (initStep st) := by
  intro i k
  unfold initStep
  split
  · exact h i k
  · exact h i k

theorem accountingInv_shutdownStep (st : SysState) (h : accountingInv st) :
    accountingInv (shutdownStep st) := by
  intro i k
  unfold shutdownStep
  split
  · have hx := h i k
    simp only [countIK, countEv, List.countP_append, List.countP_nil] at hx ⊢
    omega
  · exact h i k

theorem accountingInv_pumpStep (st : SysState) (h : accountingInv st) :
    accountingInv (pumpStep st) := by
  intro i k
  have hx := h i k
  simp only [pumpStep, countIK, countEv, List.countP_append, List.countP_nil] at hx ⊢
  omega

theorem cloudSaveCall_state (fs : String → FileResult) (st : SysState) (id : Int)
    (op : OpRequest) :
    (cloudSaveCall fs st id op).2 = st ∨
    (cloudSaveCall fs st id op).2 = (submit st id (eventKindOf op)).2 := by
  unfold cloudSaveCall
  split
  · left; rfl
  · rcases hv : validateOp fs op with _ | e
    · rcases hs : submit st id (eventKindOf op) with ⟨o, st1⟩
      cases o with
      | accepted =>
        right
        simp [hv, hs]
      | rejected r =>
        cases r with
        | DuplicateInFlightID => left; simp [hv, hs]
        | NotReady => left; simp [hv, hs]
    · left; simp [hv]

theorem accountingInv_step (st : SysState) (a : SdkAction) (h : accountingInv st) :
    accountingInv (step st a) := by
  cases a with
  | initOK => exact accountingInv_initStep st h
  | call fs id op =>
    show accountingInv (cloudSaveCall fs st id op).2
    rcases cloudSaveCall_state fs st id op with he | he
    · rw [he]; exact h
    · rw [he]; exact accountingInv_submit st id _ h
  | complete id => exact accountingInv_completeStep st id h
  | shutdown => exact accountingInv_shutdownStep st h
  | pump => exact accountingInv_pumpStep st h

theorem accountingInv_run (acts : List SdkAction) : accountingInv (run acts) := by
  have key : ∀ as st, accountingInv st → accountingInv (List.foldl step st as) := by
    intro as
    induction as with
    | nil => intro st h; simpa using h
    | cons a rest ih =>
      intro st h
      exact ih (step st a) (accountingInv_step st a h)
  exact key acts initState accountingInv_initState

/-- C1: for every request the tracker accepted with the synchronous result OK,
exactly one completion event of the matching kind carrying the unchanged
caller-supplied id is produced — in any run, per id and kind, the accepted
requests are exactly accounted for by the delivered events, the events still
queued, the requests still pending, and the requests discarded because the SDK
shut down first (which therefore never receive a completion event); the counts
balance, so no request id ever receives two completion events and no event
carries an id or kind that was not accepted. -/
theorem accepted_request_completion_accounting (acts : List SdkAction) (i : Int) (k : Nat) :
    countIK (run acts).accepted i k =
      countEv (run acts).dispatched i k + countEv (run acts).queue i k +
      countIK (run acts).pending i k + countIK (run acts).discarded i k :=
  accountingInv_run acts i k

/-! ## Single-flight per request id (C2) -/

theorem removeFirst_append_fresh (id : Int) (k : Nat) (l : List (Int × Nat))
    (h : ∀ p ∈ l, p.1 ≠ id) :
    removeFirst id (l ++ [(id, k)]) = (some k, l) := by
  induction l with
  | nil => simp [removeFirst]
  | cons p rest ih =>
    have hp : (p.1 == id) = false := by
      rw [beq_eq_false_iff_ne]
      exact h p (List.mem_cons_self p rest)
    have hr := ih (fun q hq => h q (List.mem_cons_of_mem p hq))
    simp only [List.cons_append, removeFirst, hp, Bool.false_eq_true, if_false]
    simp [hr]

/-- A state with the SDK initialized and nothing in flight. -/
def readyState : SysState :=
  { initState with session := SessionState.ready }

/-- C2: while a request with a given id is pending, submitting a second
request with the same id is rejected synchronously with DuplicateInFlightID,
and after the first request's completion event has been delivered (tracker
completion followed by a pump) the same id is accepted again. -/
theorem duplicate_id_rejected_until_completed (st : SysState) (id : Int) (k1 k2 k3 : Nat)
    (hready : st.session = SessionState.ready)
    (hfree : ∀ p ∈ st.pending, p.1 ≠ id) :
    (submit st id k1).1 = SubmitOutcome.accepted ∧
    (submit (submit st id k1).2 id k2).1 =
      SubmitOutcome.rejected RejectReason.DuplicateInFlightID ∧
    (submit (pumpStep (completeStep (submit st id k1).2 id)) id k3).1 =
      SubmitOutcome.accepted := by
  have hany : st.pending.any (fun p => p.1 == id) = false := by
    rw [List.any_eq_false]
    intro p hp
    simpa using hfree p hp
  have hsub1 : submit st id k1 =
      (SubmitOutcome.accepted,
        { st with
            pending := st.pending ++ [(id, k1)],
            accepted := st.accepted ++ [(id, k1)],
            transported := st.transported ++ [(id, k1)] }) := by
    simp [submit, hready, hany]
  refine ⟨by rw [hsub1], ?_, ?_⟩
  · rw [hsub1]
    have hany2 : (st.pending ++ [(id, k1)]).any (fun p => p.1 == id) = true := by
      simp
    simp [submit, hready, hany2]
  · rw [hsub1]
    have hrem := removeFirst_append_fresh id k1 st.pending hfree
    simp only [completeStep, hrem, pumpStep]
    simp [submit, hready, hany]

theorem duplicate_id_rejected_until_completed_witness :
    (submit readyState 1 TapEventID_CloudSaveList).1 = SubmitOutcome.accepted ∧
    (submit (submit readyState 1 TapEventID_CloudSaveList).2 1 TapEventID_CloudSaveCreate).1 =
      SubmitOutcome.rejected RejectReason.DuplicateInFlightID ∧
    (submit (pumpStep (completeStep (submit readyState 1 TapEventID_CloudSaveList).2 1)) 1
      TapEventID_CloudSaveDelete).1 = SubmitOutcome.accepted :=
  duplicate_id_rejected_until_completed readyState 1 TapEventID_CloudSaveList
    TapEventID_CloudSaveCreate TapEventID_CloudSaveDelete rfl
    (by simp [readyState, initState])

/-! ## Admission errors produce no completion event (C3) -/

/-- C3: a cloud-save call whose synchronous result is not OK changes nothing:
the tracker records no pending request, nothing is handed to the transport and
no event is ever enqueued or delivered for that call, so admission errors
never produce a completion event. -/
theorem non_ok_call_is_terminal (fs : String → FileResult) (st : SysState) (id : Int)
    (op : OpRequest) (h : (cloudSaveCall fs st id op).1 ≠ CallResult.OK) :
    (cloudSaveCall fs st id op).2 = st := by
  rcases cloudSaveCall_state fs st id op with he | he
  · exact he
  · by_cases h1 : st.session = SessionState.ready
    · rcases hv : validateOp fs op with _ | e
      · rcases hs : submit st id (eventKindOf op) with ⟨o, st1⟩
        cases o with
        | accepted =>
          exfalso
          apply h
          simp [cloudSaveCall, h1, hv, hs]
        | rejected r =>
          cases r with
          | DuplicateInFlightID => simp [cloudSaveCall, h1, hv, hs]
          | NotReady => simp [cloudSaveCall, h1, hv, hs]
      · simp [cloudSaveCall, h1, hv]
    · simp [cloudSaveCall, h1]

theorem non_ok_call_is_terminal_witness :
    (cloudSaveCall (fun _ => FileResult.notFound) initState 1 OpRequest.list).1 ≠
      CallResult.OK ∧
    (cloudSaveCall (fun _ => FileResult.notFound) initState 1 OpRequest.list).2 = initState :=
  ⟨by decide, non_ok_call_is_terminal (fun _ => FileResult.notFound) initState 1
    OpRequest.list (by decide)⟩

/-! ## Operations while not Ready (C6) -/

/-- C6: every cloud-save operation invoked while the session is not Ready —
before init has succeeded, or after shutdown — synchronously returns
Uninitialized, whatever the operation and its arguments, and changes nothing. -/
theorem not_ready_returns_uninitialized (fs : String → FileResult) (st : SysState)
    (id : Int) (op : OpRequest) (h : st.session ≠ SessionState.ready) :
    (cloudSaveCall fs st id op).1 = CallResult.Uninitialized ∧
    (cloudSaveCall fs st id op).2 = st := by
  constructor <;> simp [cloudSaveCall, h]

theorem not_ready_returns_uninitialized_witness :
    initState.session ≠ SessionState.ready ∧
    ((cloudSaveCall (fun _ => FileResult.notFound) initState 2 OpRequest.list).1 =
      CallResult.Uninitialized ∧
    (cloudSaveCall (fun _ => FileResult.notFound) initState 2 OpRequest.list).2 = initState) :=
  ⟨by decide, not_ready_returns_uninitialized (fun _ => FileResult.notFound) initState 2
    OpRequest.list (by decide)⟩

/-! ## Name validation on create (C4) -/

/-- C4: a create request whose name is empty, longer than 60 bytes, or
contains a non-ASCII byte is synchronously InvalidArgument and changes
nothing, so no completion event is ever produced for that call. -/
theorem create_bad_name_invalid_argument (fs : String → FileResult) (st : SysState)
    (id : Int) (req : TapCloudSaveCreateRequest) (bs : List Nat)
    (hready : st.session = SessionState.ready)
    (hname : req.name = some bs)
    (hbad : bs = [] ∨ 60 < bs.length ∨ ∃ b ∈ bs, 128 ≤ b) :
    (cloudSaveCall fs st id (OpRequest.create req)).1 = CallResult.InvalidArgument ∧
    (cloudSaveCall fs st id (OpRequest.create req)).2 = st := by
  have hvn : validName req.name = false := by
    rw [hname]
    rcases hbad with h0 | h0 | h0
    · subst h0
      simp [validName]
    · have hd : (decide (bs.length ≤ 60)) = false := decide_eq_false (by omega)
      simp [validName, hd]
    · have ha : asciiOnly bs = false := by
        rw [Bool.eq_false_iff]
        intro hall
        rw [asciiOnly, List.all_eq_true] at hall
        obtain ⟨b, hb, h128⟩ := h0
        have := hall b hb
        simp at this
        omega
      simp [validName, ha]
  have hv : validateOp fs (OpRequest.create req) = some CallResult.InvalidArgument := by
    simp [validateOp, validateSaveFields, hvn]
  constructor <;> simp [cloudSaveCall, hready, hv]

theorem create_bad_name_invalid_argument_witness :
    readyState.session = SessionState.ready ∧
    ((cloudSaveCall (fun _ => FileResult.notFound) readyState 4
        (OpRequest.create ⟨some [200], some [97], none, 0, some "d", none⟩)).1 =
      CallResult.InvalidArgument ∧
    (cloudSaveCall (fun _ => FileResult.notFound) readyState 4
        (OpRequest.create ⟨some [200], some [97], none, 0, some "d", none⟩)).2 =
      readyState) :=
  ⟨rfl, create_bad_name_invalid_argument (fun _ => FileResult.notFound) readyState 4
    ⟨some [200], some [97], none, 0, some "d", none⟩ [200] rfl rfl (by decide)⟩

/-! ## File size limits on create and update (C5) -/

/-- C5: with valid fields and readable files, a data file over 10 MiB makes
create and update synchronously SaveFileTooLarge, and a data file within the
limit with a cover file over 512 KiB makes them synchronously
CoverFileTooLarge; in both cases the state is unchanged, so nothing is handed
to the transport. -/
theorem oversized_files_rejected (fs : String → FileResult) (st : SysState) (id : Int)
    (name summary extra : Option (List Nat)) (pt : Nat) (u dp cp : String)
    (dbytes cbytes : List Nat)
    (hready : st.session = SessionState.ready)
    (hname : validName name = true) (hsum : validSummary summary = true)
    (hext : validExtra extra = true)
    (hdf : fs dp = FileResult.found dbytes)
    (hcf : fs cp = FileResult.found cbytes) :
    (maxSaveBytes < dbytes.length →
      ((cloudSaveCall fs st id
          (OpRequest.create ⟨name, summary, extra, pt, some dp, some cp⟩)).1 =
            CallResult.SaveFileTooLarge ∧
        (cloudSaveCall fs st id
          (OpRequest.create ⟨name, summary, extra, pt, some dp, some cp⟩)).2 = st) ∧
      ((cloudSaveCall fs st id
          (OpRequest.update ⟨some u, name, summary, extra, pt, some dp, some cp⟩)).1 =
            CallResult.SaveFileTooLarge ∧
        (cloudSaveCall fs st id
          (OpRequest.update ⟨some u, name, summary, extra, pt, some dp, some cp⟩)).2 = st)) ∧
    (dbytes.length ≤ maxSaveBytes → maxCoverBytes < cbytes.length →
      ((cloudSaveCall fs st id
          (OpRequest.create ⟨name, summary, extra, pt, some dp, some cp⟩)).1 =
            CallResult.CoverFileTooLarge ∧
        (cloudSaveCall fs st id
          (OpRequest.create ⟨name, summary, extra, pt, some dp, some cp⟩)).2 = st) ∧
      ((cloudSaveCall fs st id
          (OpRequest.update ⟨some u, name, summary, extra, pt, some dp, some cp⟩)).1 =
            CallResult.CoverFileTooLarge ∧
        (cloudSaveCall fs st id
          (OpRequest.update ⟨some u, name, summary, extra, pt, some dp, some cp⟩)).2 = st)) := by
  constructor
  · intro hbig
    have hv : validateSaveFields fs name summary extra (some dp) (some cp) =
        some CallResult.SaveFileTooLarge := by
      simp [validateSaveFields, hname, hsum, hext, hdf, hbig]
    simp [cloudSaveCall, hready, validateOp, hv]
  · intro hsmall hbigc
    have hnb : ¬ maxSaveBytes < dbytes.length := Nat.not_lt.mpr hsmall
    have hv : validateSaveFields fs name summary extra (some dp) (some cp) =
        some CallResult.CoverFileTooLarge := by
      simp [validateSaveFields, hname, hsum, hext, hdf, hnb, hcf, hbigc]
    simp [cloudSaveCall, hready, validateOp, hv]

/-- A filesystem with an over-10-MiB data file and an over-512-KiB cover. -/
def bigFS : String → FileResult :=
  fun p =>
    if p = "save.dat" then FileResult.found (List.replicate (maxSaveBytes + 1) 0)
    else FileResult.found (List.replicate (maxCoverBytes + 1) 0)

theorem oversized_files_rejected_witness :
    (cloudSaveCall bigFS readyState 3
        (OpRequest.create ⟨some [97], some [98], none, 0, some "save.dat",
          some "cover.png"⟩)).1 = CallResult.SaveFileTooLarge := by
  have h := oversized_files_rejected bigFS readyState 3 (some [97]) (some [98]) none 0
    "u" "save.dat" "cover.png" (List.replicate (maxSaveBytes + 1) 0)
    (List.replicate (maxCoverBytes + 1) 0) rfl (by decide) (by decide) rfl
    (by simp [bigFS]) (by simp [bigFS])
  exact (h.1 (by rw [List.length_replicate]; omega)).1.1

/-! ## Dispatcher and CallbackRegistry (C7) -/

/-- Modelled from the spec: what a listener invocation may request — enqueue a
new event, register a listener for a kind, unregister one. -/
inductive Effect
  | enqueue (e : Nat × Int)
  | register (kind listener : Nat)
  | unregister (kind listener : Nat)
deriving DecidableEq, Repr

/-- Modelled from the spec: the Dispatcher's state — the CallbackRegistry as a
list of (event kind, listener) in registration order, and the EventQueue in
arrival order. -/
structure DispatcherState where
  registry : List (Nat × Nat)
  queue : List (Nat × Int)
deriving DecidableEq, Repr

/-- The listeners registered for a kind, in registration order. -/
def listenersFor (reg : List (Nat × Nat)) (k : Nat) : List Nat :=
  (reg.filter (fun p => p.1 == k)).map Prod.snd

/-- Modelled from the spec: applying one deferred listener effect after the
drain — an enqueued event appends to the queue, a registration appends to the
registry, an unregistration removes the registration and is a no-op when it is
not present. -/
def applyEffect (st : DispatcherState) : Effect → DispatcherState
  | Effect.enqueue e => { st with queue := st.queue ++ [e] }
  | Effect.register k l => { st with registry := st.registry ++ [(k, l)] }
  | Effect.unregister k l => { st with registry := st.registry.erase (k, l) }

/-- Modelled from the spec: TapSDK_RunCallbacks. The pump takes ownership of
all events currently queued and, preserving arrival order, invokes the
listeners registered for each event's kind in registration order, against the
registry as it stood when the pump began; the effects listeners request are
collected in invocation order and applied only after the drain. Returns the
next state and the invocation log of (listener, event) pairs. -/
def pump (eff : Nat → (Nat × Int) → List Effect) (st : DispatcherState) :
    DispatcherState × List (Nat × (Nat × Int)) :=
  let go := fun (acc : List (Nat × (Nat × Int)) × List Effect) (e : Nat × Int) =>
    (listenersFor st.registry e.1).foldl
      (fun a l => (a.1 ++ [(l, e)], a.2 ++ eff l e)) acc
  let res := st.queue.foldl go ([], [])
  (res.2.foldl applyEffect { registry := st.registry, queue := [] }, res.1)

/-- The events enqueued by a list of effects, in order. -/
def enqueuedOf : List Effect → List (Nat × Int)
  | [] => []
  | Effect.enqueue e :: rest => e :: enqueuedOf rest
  | Effect.register _ _ :: rest => enqueuedOf rest
  | Effect.unregister _ _ :: rest => enqueuedOf rest

theorem foldl_invoke_one (eff : Nat → (Nat × Int) → List Effect) (e : Nat × Int)
    (ls : List Nat) (acc : List (Nat × (Nat × Int)) × List Effect) :
    ls.foldl (fun a l => (a.1 ++ [(l, e)], a.2 ++ eff l e)) acc =
      (acc.1 ++ ls.map (fun l => (l, e)), acc.2 ++ ls.flatMap (fun l => eff l e)) := by
  induction ls generalizing acc with
  | nil => simp
  | cons l rest ih =>
    simp only [List.foldl_cons, List.map_cons, List.flatMap_cons]
    rw [ih]
    simp

theorem foldl_invoke (eff : Nat → (Nat × Int) → List Effect) (reg : List (Nat × Nat))
    (q : List (Nat × Int)) (acc : List (Nat × (Nat × Int)) × List Effect) :
    q.foldl (fun acc2 e => (listenersFor reg e.1).foldl
        (fun a l => (a.1 ++ [(l, e)], a.2 ++ eff l e)) acc2) acc =
      (acc.1 ++ q.flatMap (fun e => (listenersFor reg e.1).map (fun l => (l, e))),
       acc.2 ++ q.flatMap (fun e => (listenersFor reg e.1).flatMap (fun l => eff l e))) := by
  induction q generalizing acc with
  | nil => simp
  | cons e rest ih =>
    simp only [List.foldl_cons, List.flatMap_cons]
    rw [foldl_invoke_one, ih]
    simp

theorem foldl_applyEffect_queue (effs : List Effect) (st : DispatcherState) :
    (effs.foldl applyEffect st).queue = st.queue ++ enqueuedOf effs := by
  induction effs generalizing st with
  | nil => simp [enqueuedOf]
  | cons ef rest ih =>
    cases ef with
    | enqueue e => simp [applyEffect, enqueuedOf, ih]
    | register k l => simp [applyEffect, enqueuedOf, ih]
    | unregister k l => simp [applyEffect, enqueuedOf, ih]

/-- C7: within one pump, the invocation log is exactly the pre-pump queue in
arrival order, each event handled by the listeners the pre-pump registry holds
for its kind in registration order; the post-pump state is the pre-pump
registry with the drained queue, updated only by the effects the listeners
requested, applied after the drain — and the next queue is exactly the events
enqueued during the pump, so enqueues, registrations and unregistrations made
during a pump take effect from the next pump only. -/
theorem pump_order_and_deferral (eff : Nat → (Nat × Int) → List Effect)
    (st : DispatcherState) :
    (pump eff st).2 =
      st.queue.flatMap (fun e => (listenersFor st.registry e.1).map (fun l => (l, e))) ∧
    (pump eff st).1 =
      (st.queue.flatMap (fun e => (listenersFor st.registry e.1).flatMap (fun l => eff l e))).foldl
        applyEffect { registry := st.registry, queue := [] } ∧
    (pump eff st).1.queue =
      enqueuedOf
        (st.queue.flatMap (fun e => (listenersFor st.registry e.1).flatMap (fun l => eff l e))) := by
  have hfold := foldl_invoke eff st.registry st.queue ([], [])
  refine ⟨?_, ?_, ?_⟩
  · simp only [pump, hfold]
    simp
  · simp only [pump, hfold]
    simp
  · simp only [pump, hfold]
    simp [foldl_applyEffect_queue]

/-! ## Completion response construction (C8, C10) -/

/-- TapSDK_Error from src/reference/taptap_api.h: an error code and a message
pointer (none models a NULL const char pointer). -/
structure TapSDK_Error where
  code : Int
  message : Option String
deriving DecidableEq, Repr

/-- TapCloudSaveInfo from src/reference/taptap_cloudsave.h. -/
structure TapCloudSaveInfo where
  uuid : Option String
  file_id : Option String
  name : Option String
  save_size : Nat
  cover_size : Nat
  summary : Option String
  extra : Option String
  playtime : Nat
  created_time : Nat
  modified_time : Nat
deriving DecidableEq, Repr

/-- TapCloudSaveListResponse from src/reference/taptap_cloudsave.h: the saves
pointer is none exactly when NULL, save_count is the declared int32 count. -/
structure TapCloudSaveListResponse where
  request_id : Int
  error : Option TapSDK_Error
  save_count : Int
  saves : Option (List TapCloudSaveInfo)
deriving DecidableEq, Repr

/-- TapCloudSaveCreateResponse from src/reference/taptap_cloudsave.h (the
update response has the same shape). -/
structure TapCloudSaveCreateResponse where
  request_id : Int
  error : Option TapSDK_Error
  save : Option TapCloudSaveInfo
deriving DecidableEq, Repr

/-- TapCloudSaveGetFileResponse from src/reference/taptap_cloudsave.h. -/
structure TapCloudSaveGetFileResponse where
  request_id : Int
  error : Option TapSDK_Error
  size : Nat
  data : Option (List Nat)
deriving DecidableEq, Repr

/-- Modelled from the spec: the SDKError of a failed completion carries the
platform's code together with its message — never partially populated. -/
def mkError (code : Int) (msg : String) : TapSDK_Error :=
  { code := code, message := some msg }

/-- Modelled from the spec: the list completion response the runtime builds
for a request id from the transport's outcome. On success there is no error
and the saves array carries its count, the pointer NULL exactly when the count
is zero; on failure a fully populated error and no payload. -/
def mkListResponse (id : Int) (outcome : Except (Int × String) (List TapCloudSaveInfo)) :
    TapCloudSaveListResponse :=
  match outcome with
  | Except.ok saves =>
    { request_id := id, error := none, save_count := saves.length,
      saves := if saves.isEmpty then none else some saves }
  | Except.error pr =>
    { request_id := id, error := some (mkError pr.1 pr.2), save_count := 0, saves := none }

/-- Modelled from the spec: the create (and update) completion response the
runtime builds for a request id from the transport's outcome. -/
def mkCreateResponse (id : Int) (outcome : Except (Int × String) TapCloudSaveInfo) :
    TapCloudSaveCreateResponse :=
  match outcome with
  | Except.ok s => { request_id := id, error := none, save := some s }
  | Except.error pr => { request_id := id, error := some (mkError pr.1 pr.2), save := none }

/-- Modelled from the spec: the get-data/get-cover completion response the
runtime builds for a request id from the transport's outcome; the data pointer
is NULL exactly when the size is zero. -/
def mkGetFileResponse (id : Int) (outcome : Except (Int × String) (List Nat)) :
    TapCloudSaveGetFileResponse :=
  match outcome with
  | Except.ok bytes =>
    { request_id := id, error := none, size := bytes.length,
      data := if bytes.isEmpty then none else some bytes }
  | Except.error pr =>
    { request_id := id, error := some (mkError pr.1 pr.2), size := 0, data := none }

/-- C8: in every completion response the error is NULL exactly when the
request succeeded; when present, the error is fully populated — its message is
never NULL — and the success payload (save record, save list, or file data) is
NULL. -/
theorem completion_error_never_partial (id : Int)
    (lo : Except (Int × String) (List TapCloudSaveInfo))
    (co : Except (Int × String) TapCloudSaveInfo)
    (fo : Except (Int × String) (List Nat)) :
    ((mkListResponse id lo).error = none ↔ lo.isOk = true) ∧
    (∀ e, (mkListResponse id lo).error = some e →
      e.message ≠ none ∧ (mkListResponse id lo).saves = none) ∧
    ((mkCreateResponse id co).error = none ↔ co.isOk = true) ∧
    (∀ e, (mkCreateResponse id co).error = some e →
      e.message ≠ none ∧ (mkCreateResponse id co).save = none) ∧
    ((mkGetFileResponse id fo).error = none ↔ fo.isOk = true) ∧
    (∀ e, (mkGetFileResponse id fo).error = some e →
      e.message ≠ none ∧ (mkGetFileResponse id fo).data = none) := by
  refine ⟨?_, ?_, ?_, ?_, ?_, ?_⟩ <;>
    [cases lo; cases lo; cases co; cases co; cases fo; cases fo] <;>
    simp [mkListResponse, mkCreateResponse, mkGetFileResponse, mkError, Except.isOk,
      Except.toBool]

/-- C10: in every response the runtime builds, an empty payload is a NULL
pointer with a zero count: the list response's saves pointer is none exactly
when save_count is zero and otherwise carries exactly save_count records; the
get-data/get-cover response's data pointer is none exactly when size is zero
and otherwise carries exactly size bytes. -/
theorem empty_payload_null_and_counts_match (id : Int)
    (lo : Except (Int × String) (List TapCloudSaveInfo))
    (fo : Except (Int × String) (List Nat)) :
    ((mkListResponse id lo).save_count = 0 ↔ (mkListResponse id lo).saves = none) ∧
    (∀ a, (mkListResponse id lo).saves = some a →
      (a.length : Int) = (mkListResponse id lo).save_count) ∧
    ((mkGetFileResponse id fo).size = 0 ↔ (mkGetFileResponse id fo).data = none) ∧
    (∀ bs, (mkGetFileResponse id fo).data = some bs →
      bs.length = (mkGetFileResponse id fo).size) := by
  refine ⟨?_, ?_, ?_, ?_⟩
  · cases lo with
    | error pr => simp [mkListResponse, mkError]
    | ok vs =>
      cases vs with
      | nil => simp [mkListResponse]
      | cons v rest =>
        simp [mkListResponse]
        omega
  · cases lo with
    | error pr => simp [mkListResponse, mkError]
    | ok vs =>
      cases vs with
      | nil => simp [mkListResponse]
      | cons v rest => simp [mkListResponse]
  · cases fo with
    | error pr => simp [mkGetFileResponse, mkError]
    | ok bs =>
      cases bs with
      | nil => simp [mkGetFileResponse]
      | cons b rest => simp [mkGetFileResponse]
  · cases fo with
    | error pr => simp [mkGetFileResponse, mkError]
    | ok bs =>
      cases bs with
      | nil => simp [mkGetFileResponse]
      | cons b rest => simp [mkGetFileResponse]
